import Mathlib

/-!
Shallow embedding of the three Airflow DAG definition files of the
repository `afriths/airflow_docker`:

  * `dags/dag_with_catchup_and_backfill.py`
  * `dags/dag_with_cron_expression.py`
  * `dags/dag_with_postgres_operator.py`

Each file is declarative configuration: a default-argument mapping, a DAG
record (identifier, start date, schedule, catchup flag) and a list of
operator steps with `>>` ordering edges.  The embedding mirrors those
literal configuration values.  The external orchestration engine's
semantics (cron parsing, catchup, SQL execution) are out of scope of the
repository; where a claim needs them they are modelled from the spec in
clearly marked definitions below.
-/

/-- A calendar date, as in `datetime(year, month, day)`. -/
structure Date where
  year : Nat
  month : Nat
  day : Nat
deriving DecidableEq, Repr

/-- A duration, as in `timedelta(minutes=n)`. -/
structure Duration where
  minutes : Nat
deriving DecidableEq, Repr

/-- The `default_args` mapping passed to each DAG. -/
structure DefaultArgs where
  owner : String
  retries : Int
  retry_delay : Duration
deriving DecidableEq, Repr

/-- One operator step: a `task_id` plus its payload (a bash command or a
SQL text) and, for SQL steps, the connection identifier. -/
structure Step where
  task_id : String
  conn_id : Option String
  payload : String
deriving DecidableEq, Repr

/-- A DAG record: the keyword arguments of the `DAG(...)` constructor plus
the steps declared in its body and the ordering edges declared with `>>`
(as pairs of task identifiers). -/
structure Workflow where
  dag_id : String
  default_args : DefaultArgs
  description : Option String
  start_date : Date
  schedule : String
  catchup : Bool
  steps : List Step
  edges : List (String × String)
deriving DecidableEq, Repr

namespace CatchupDag

/- `dags/dag_with_catchup_and_backfill.py` -/

def default_args : DefaultArgs :=
  { owner := "afrith", retries := 5, retry_delay := { minutes := 2 } }

def task1 : Step :=
  { task_id := "task1"
    conn_id := none
    payload := "echo This is a simple bash command!" }

def dag : Workflow :=
  { dag_id := "dag_with_catchup_and_backfill_v02"
    default_args := default_args
    description := some "DAG with catchup and backfill example"
    start_date := { year := 2025, month := 12, day := 21 }
    schedule := "@daily"
    catchup := true
    steps := [task1]
    edges := [] }

end CatchupDag

namespace CronDag

/- `dags/dag_with_cron_expression.py` -/

def default_args : DefaultArgs :=
  { owner := "afrith", retries := 5, retry_delay := { minutes := 5 } }

def task1 : Step :=
  { task_id := "task1"
    conn_id := none
    payload := "echo dag with cron expression!" }

def dag : Workflow :=
  { dag_id := "dag_with_cron_expression_v04"
    default_args := default_args
    description := none
    start_date := { year := 2025, month := 12, day := 16 }
    schedule := "0 3 * * Tue"
    catchup := true
    steps := [task1]
    edges := [] }

end CronDag

namespace PostgresDag

/- `dags/dag_with_postgres_operator.py` -/

def default_args : DefaultArgs :=
  { owner := "afrith", retries := 5, retry_delay := { minutes := 5 } }

def task1 : Step :=
  { task_id := "create_postgres_table"
    conn_id := some "postgres_localhost"
    payload := "\n        CREATE TABLE IF NOT EXISTS dag_runs (\n            dt DATE,\n            dag_id VARCHAR,\n            PRIMARY KEY (dt, dag_id)\n        );\n        " }

def task2 : Step :=
  { task_id := "insert_into_table"
    conn_id := some "postgres_localhost"
    payload := "\n            INSERT INTO dag_runs (dt, dag_id) VALUES (\x27\x7b\x7b ds \x7d\x7d\x27, \x27\x7b\x7b dag.dag_id \x7d\x7d\x27)\n        " }

def task3 : Step :=
  { task_id := "delete_data_from_table"
    conn_id := some "postgres_localhost"
    payload := "\n            DELETE FROM dag_runs WHERE dt = \x27\x7b\x7b ds \x7d\x7d\x27 and dag_id = \x27\x7b\x7b dag.dag_id \x7d\x7d\x27;\n        " }

def dag : Workflow :=
  { dag_id := "dag_with_postgres_operator_v03"
    default_args := default_args
    description := none
    start_date := { year := 2025, month := 12, day := 16 }
    schedule := "0 0 * * *"
    catchup := false
    steps := [task1, task2, task3]
    edges := [(task1.task_id, task3.task_id), (task3.task_id, task2.task_id)] }

end PostgresDag

/-- The three workflows declared in the repository, one per file. -/
def workflows : List Workflow := [CatchupDag.dag, CronDag.dag, PostgresDag.dag]

/-! ### String helpers -/

/-- `matchesAt needle hay`: `needle` is an initial segment of `hay`. -/
def matchesAt : List Char → List Char → Bool
  | [], _ => true
  | _ :: _, [] => false
  | a :: as, b :: bs => a == b && matchesAt as bs

/-- `occurs needle hay`: `needle` occurs contiguously inside `hay`. -/
def occurs : List Char → List Char → Bool
  | needle, [] => needle.isEmpty
  | needle, c :: rest => matchesAt needle (c :: rest) || occurs needle rest

/-- Substring test on strings. -/
def occursStr (needle hay : String) : Bool :=
  occurs needle.toList hay.toList

/-- Split a character list into maximal space-free words, accumulating the
current word in reverse in `acc`. -/
def wordsAux : List Char → List Char → List (List Char)
  | [], acc => if acc.isEmpty then [] else [acc.reverse]
  | c :: rest, acc =>
    if c == ' ' then
      if acc.isEmpty then wordsAux rest [] else acc.reverse :: wordsAux rest []
    else wordsAux rest (c :: acc)

/-- The space-separated words of a string. -/
def words (s : String) : List (List Char) := wordsAux s.toList []

/-- Parse a non-empty all-digit word as a decimal number. -/
def parseNat? (cs : List Char) : Option Nat :=
  if cs.isEmpty then none
  else cs.foldl
    (fun acc c =>
      match acc with
      | none => none
      | some n => if c.isDigit then some (n * 10 + (c.toNat - 48)) else none)
    (some 0)

/-! ### Schedule validity, modelled from the spec

The repository contains no cron parser: schedules are strings handed to the
external engine.  The following validity predicate is modelled from the
spec's interface description (named intervals such as `@daily`, or a
five-field cron expression such as `0 3 * * Tue`).  It accepts a sound
subset of cron: each field is `*`, a number in the field's range, or (for
the month and day-of-week fields) a three-letter name. -/

/-- The named schedule intervals accepted by the external engine. -/
def namedIntervals : List String :=
  ["@once", "@hourly", "@daily", "@weekly", "@monthly", "@quarterly", "@yearly"]

/-- Three-letter day-of-week names accepted in the fifth cron field. -/
def dowNames : List (List Char) :=
  ["Sun".toList, "Mon".toList, "Tue".toList, "Wed".toList,
   "Thu".toList, "Fri".toList, "Sat".toList]

/-- Three-letter month names accepted in the fourth cron field. -/
def monthNames : List (List Char) :=
  ["Jan".toList, "Feb".toList, "Mar".toList, "Apr".toList, "May".toList,
   "Jun".toList, "Jul".toList, "Aug".toList, "Sep".toList, "Oct".toList,
   "Nov".toList, "Dec".toList]

/-- One cron field: `*`, a number within `[lo, hi]`, or one of `names`. -/
def cronFieldValid (lo hi : Nat) (names : List (List Char)) (f : List Char) : Bool :=
  f == ['*']
    || (match parseNat? f with
        | some n => decide (lo ≤ n) && decide (n ≤ hi)
        | none => false)
    || names.contains f

/-- Modelled from the spec: a syntactically valid five-field cron
expression (minute, hour, day-of-month, month, day-of-week). -/
def validCron (s : String) : Bool :=
  match words s with
  | [mi, h, dom, mon, dow] =>
    cronFieldValid 0 59 [] mi && cronFieldValid 0 23 [] h
      && cronFieldValid 1 31 [] dom && cronFieldValid 1 12 monthNames mon
      && cronFieldValid 0 7 dowNames dow
  | _ => false

/-- Modelled from the spec: a schedule expression is a named interval or a
syntactically valid cron expression. -/
def validSchedule (s : String) : Bool :=
  namedIntervals.contains s || validCron s

/-! ### Step ordering -/

/-- `reach edges fuel a b`: task `b` is reachable from task `a` along the
declared `>>` edges in at most `fuel` hops. -/
def reach (edges : List (String × String)) : Nat → String → String → Bool
  | 0, _, _ => false
  | fuel + 1, a, b =>
    edges.contains (a, b)
      || edges.any (fun e => e.1 == a && reach edges fuel e.2 b)

/-- Every pair of distinct steps of the workflow is ordered one way or the
other by the declared edges (vacuously true for a single step). -/
def explicitlyOrdered (w : Workflow) : Bool :=
  w.steps.all fun s =>
    w.steps.all fun t =>
      s.task_id == t.task_id
        || reach w.edges (w.edges.length + 1) s.task_id t.task_id
        || reach w.edges (w.edges.length + 1) t.task_id s.task_id

/-! ### Catchup, modelled from the spec -/

/-- A date as a single comparable number (lexicographic year/month/day). -/
def dateKey (d : Date) : Nat := d.year * 10000 + d.month * 100 + d.day

/-- Modelled from the spec: the external engine's catchup semantics.  When
a workflow's catchup flag is set, the engine executes every scheduled run
date lying between the workflow's start date and now ("execution of all
historically missed scheduled runs between start date and now"). -/
def catchupExecutes (w : Workflow) (now d : Date) : Bool :=
  w.catchup && decide (dateKey w.start_date ≤ dateKey d)
    && decide (dateKey d ≤ dateKey now)

/-! ### SQL semantics for the `dag_runs` table, modelled from the spec

The repository ships SQL text only; execution belongs to the external
engine's SQL subsystem.  The following is a minimal relational model of
the three statements of `dag_with_postgres_operator.py`, modelled from the
spec: the `dag_runs` table is a list of `(dt, dag_id)` rows with primary
key `(dt, dag_id)`. -/

/-- One row of the `dag_runs` table: the run date and the workflow id. -/
structure Row where
  dt : String
  dag_id : String
deriving DecidableEq, Repr

/-- The database state relevant to the third workflow: whether `dag_runs`
exists, and its rows. -/
structure DBState where
  tableExists : Bool
  rows : List Row
deriving DecidableEq, Repr

/-- Modelled from the spec: `CREATE TABLE IF NOT EXISTS dag_runs ...` — if
the table already exists the statement is a no-op that succeeds; otherwise
it creates the empty table. -/
def execCreateIfNotExists (s : DBState) : Option DBState :=
  if s.tableExists then some s
  else some { tableExists := true, rows := [] }

/-- `keyMatch ds di r`: row `r` has primary key `(ds, di)`. -/
def keyMatch (ds di : String) (r : Row) : Bool :=
  r.dt == ds && r.dag_id == di

/-- Modelled from the spec: `DELETE FROM dag_runs WHERE dt = ds and
dag_id = di` — removes every row whose key equals `(ds, di)`. -/
def execDelete (ds di : String) (t : List Row) : List Row :=
  t.filter fun r => ! keyMatch ds di r

/-- Modelled from the spec: `INSERT INTO dag_runs (dt, dag_id) VALUES
(ds, di)` — fails (`none`) when a row with the same `(dt, dag_id)` primary
key is already present, otherwise appends the new row. -/
def execInsert (ds di : String) (t : List Row) : Option (List Row) :=
  if t.any (keyMatch ds di) then none
  else some (t ++ [{ dt := ds, dag_id := di }])

/-- The third workflow's delete step followed by its insert step, on the
rows of `dag_runs`. -/
def execDeleteThenInsert (ds di : String) (t : List Row) : Option (List Row) :=
  execInsert ds di (execDelete ds di t)

/-! ### Helper lemmas -/

/-- Filtering by the negation of `p` leaves no element satisfying `p`. -/
theorem any_filter_not (p : Row → Bool) (t : List Row) :
    (t.filter fun r => !p r).any p = false := by
  induction t with
  | nil => rfl
  | cons r rest ih =>
    cases h : p r with
    | true => simp [List.filter_cons, h, ih]
    | false => simp [List.filter_cons, h, ih]

/-- After deleting key `(ds, di)`, no row with that key remains. -/
theorem execDelete_any_key (ds di : String) (t : List Row) :
    (execDelete ds di t).any (keyMatch ds di) = false :=
  any_filter_not (keyMatch ds di) t

/-- The rows kept by the delete step all fail the key test, so filtering
them for the key yields nothing. -/
theorem execDelete_filter_key (ds di : String) (t : List Row) :
    (execDelete ds di t).filter (keyMatch ds di) = [] := by
  induction t with
  | nil => rfl
  | cons r rest ih =>
    cases h : keyMatch ds di r with
    | true => simp [execDelete, List.filter_cons, h, ih]
    | false => simp [execDelete, List.filter_cons, h, ih]

/-! ### Claim theorems -/

/-- C1: the third workflow's step graph defines exactly three steps with
the ordering create-table → delete → insert (python variables
`task1 >> task3 >> task2`), and these two edges are the only declared
edges. -/
theorem c1_postgres_step_graph :
    PostgresDag.dag.steps.length = 3 ∧
    PostgresDag.dag.steps.map Step.task_id =
      ["create_postgres_table", "insert_into_table", "delete_data_from_table"] ∧
    PostgresDag.dag.edges =
      [("create_postgres_table", "delete_data_from_table"),
       ("delete_data_from_table", "insert_into_table")] :=
  ⟨rfl, rfl, rfl⟩

/-- C2: every one of the three workflows declares a default retry count
equal to the non-negative integer 5 in its default-argument mapping. -/
theorem c2_retries_five :
    workflows.all
      (fun w => w.default_args.retries == 5 && decide (0 ≤ w.default_args.retries))
      = true := by
  decide

/-- C3: every workflow identifier declared in the repository is a
non-empty string, and no two of the three workflows share an identifier. -/
theorem c3_dag_ids_unique_nonempty :
    (workflows.map Workflow.dag_id).all (fun s => !(s == "")) = true ∧
    (workflows.map Workflow.dag_id).Nodup := by
  constructor
  · decide
  · decide

/-- C4: each workflow's schedule is the documented string, and each is a
syntactically valid cron expression or named-interval string (validity
modelled from the spec, see `validSchedule`). -/
theorem c4_schedules_valid :
    CatchupDag.dag.schedule = "@daily" ∧
    CronDag.dag.schedule = "0 3 * * Tue" ∧
    PostgresDag.dag.schedule = "0 0 * * *" ∧
    workflows.all (fun w => validSchedule w.schedule) = true :=
  ⟨rfl, rfl, rfl, by decide⟩

/-- C5: the catchup/backfill workflow declares a start date and sets its
catchup flag, so (under the spec-modelled catchup semantics
`catchupExecutes`) every scheduled run date between the start date and now
is executed. -/
theorem c5_catchup_declared (now d : Date)
    (h1 : dateKey CatchupDag.dag.start_date ≤ dateKey d)
    (h2 : dateKey d ≤ dateKey now) :
    CatchupDag.dag.start_date = ⟨2025, 12, 21⟩ ∧
    CatchupDag.dag.catchup = true ∧
    catchupExecutes CatchupDag.dag now d = true := by
  refine ⟨rfl, rfl, ?_⟩
  have hc : CatchupDag.dag.catchup = true := rfl
  simp [catchupExecutes, hc, h1, h2]

/-- Witness for C5 at the concrete dates 2025-12-22 (missed run) and
2025-12-25 (now). -/
theorem c5_catchup_declared_witness :
    catchupExecutes CatchupDag.dag ⟨2025, 12, 25⟩ ⟨2025, 12, 22⟩ = true :=
  (c5_catchup_declared ⟨2025, 12, 25⟩ ⟨2025, 12, 22⟩ (by decide) (by decide)).2.2

/-- C6: each of the three files declares a non-empty workflow identifier,
a default retry policy (a non-negative retry count and a positive retry
delay), a non-empty schedule, and at least one step, with the declared
edges ordering every pair of distinct steps. -/
theorem c6_each_file_declares :
    workflows.all
      (fun w =>
        !(w.dag_id == "")
          && decide (0 ≤ w.default_args.retries)
          && decide (0 < w.default_args.retry_delay.minutes)
          && !(w.schedule == "")
          && decide (1 ≤ w.steps.length)
          && explicitlyOrdered w)
      = true := by
  decide

/-- C7: the SQL texts of the third workflow's insert step (`task2`) and
delete step (`task3`) each contain both the run-date template and the
workflow-identifier template verbatim — the code stores them
unsubstituted, leaving substitution to the external engine. -/
theorem c7_templates_in_sql :
    occursStr "\x7b\x7b ds \x7d\x7d" PostgresDag.task2.payload = true ∧
    occursStr "\x7b\x7b dag.dag_id \x7d\x7d" PostgresDag.task2.payload = true ∧
    occursStr "\x7b\x7b ds \x7d\x7d" PostgresDag.task3.payload = true ∧
    occursStr "\x7b\x7b dag.dag_id \x7d\x7d" PostgresDag.task3.payload = true := by
  refine ⟨by decide, by decide, by decide, by decide⟩

/-- C8: the catchup flags of the three workflows are not uniform: true for
the catchup/backfill and cron workflows, false for the postgres
workflow. -/
theorem c8_catchup_flags_not_uniform :
    CatchupDag.dag.catchup = true ∧
    CronDag.dag.catchup = true ∧
    PostgresDag.dag.catchup = false ∧
    workflows.map Workflow.catchup = [true, true, false] ∧
    workflows.all Workflow.catchup = false ∧
    workflows.all (fun w => !w.catchup) = false :=
  ⟨rfl, rfl, rfl, rfl, by decide, by decide⟩

/-- C9: the create-table step's SQL uses CREATE TABLE IF NOT EXISTS, so
(under the spec-modelled SQL semantics `execCreateIfNotExists`) executing
it in a state where `dag_runs` already exists succeeds and leaves the
state unchanged. -/
theorem c9_create_if_not_exists (s : DBState) (h : s.tableExists = true) :
    occursStr "CREATE TABLE IF NOT EXISTS" PostgresDag.task1.payload = true ∧
    execCreateIfNotExists s = some s := by
  refine ⟨by decide, ?_⟩
  simp [execCreateIfNotExists, h]

/-- Witness for C9 at a concrete state where the table exists. -/
theorem c9_create_if_not_exists_witness :
    execCreateIfNotExists { tableExists := true, rows := [{ dt := "2025-12-16", dag_id := "dag_with_postgres_operator_v03" }] }
      = some { tableExists := true, rows := [{ dt := "2025-12-16", dag_id := "dag_with_postgres_operator_v03" }] } :=
  (c9_create_if_not_exists
    { tableExists := true, rows := [{ dt := "2025-12-16", dag_id := "dag_with_postgres_operator_v03" }] }
    rfl).2

/-- C10: for every prior table state and every run date `ds` and workflow
identifier `di`, the delete step followed by the insert step succeeds
(never violates the `(dt, dag_id)` primary key), leaves exactly one row
with key `(ds, di)`, and re-running the delete-then-insert pair on the
result reproduces the same state (idempotence). -/
theorem c10_delete_then_insert (t : List Row) (ds di : String) :
    ∃ t', execDeleteThenInsert ds di t = some t' ∧
      t'.filter (keyMatch ds di) = [{ dt := ds, dag_id := di }] ∧
      execDeleteThenInsert ds di t' = some t' := by
  refine ⟨execDelete ds di t ++ [{ dt := ds, dag_id := di }], ?_, ?_, ?_⟩
  · simp [execDeleteThenInsert, execInsert, execDelete_any_key ds di t]
  · have hkey : keyMatch ds di { dt := ds, dag_id := di } = true := by
      simp [keyMatch]
    simp [List.filter_append, execDelete_filter_key ds di t, hkey]
  · have hdel :
        execDelete ds di (execDelete ds di t ++ [{ dt := ds, dag_id := di }])
          = execDelete ds di t := by
      have hkey : keyMatch ds di { dt := ds, dag_id := di } = true := by
        simp [keyMatch]
      simp [execDelete, List.filter_append, hkey]
    simp [execDeleteThenInsert, hdel, execInsert, execDelete_any_key ds di t]

/-- Witness for C10 at a concrete prior state containing a stale row for
the same key and an unrelated row. -/
theorem c10_delete_then_insert_witness :
    ∃ t', execDeleteThenInsert "2025-12-16" "dag_with_postgres_operator_v03"
        [{ dt := "2025-12-16", dag_id := "dag_with_postgres_operator_v03" },
         { dt := "2025-12-15", dag_id := "dag_with_postgres_operator_v03" }] = some t' ∧
      t'.filter (keyMatch "2025-12-16" "dag_with_postgres_operator_v03") =
        [{ dt := "2025-12-16", dag_id := "dag_with_postgres_operator_v03" }] ∧
      execDeleteThenInsert "2025-12-16" "dag_with_postgres_operator_v03" t' = some t' :=
  c10_delete_then_insert
    [{ dt := "2025-12-16", dag_id := "dag_with_postgres_operator_v03" },
     { dt := "2025-12-15", dag_id := "dag_with_postgres_operator_v03" }]
    "2025-12-16" "dag_with_postgres_operator_v03"
